import Mathlib

/-!
Verification of the `fastapi-aws` repository against its specification.

The repository attaches AWS API-Gateway vendor-extension metadata to
FastAPI routes.  The relevant code is pure dictionary / string
construction, which we embed shallowly:

* Python (JSON-like) values become the inductive type `JValue`;
  Python dicts become ordered association lists `List (String × JValue)`
  (insertion order preserved, as in Python 3.7+ dicts).
* fallible code (`raise ValueError`, `assert`, `raise NotImplementedError`)
  becomes `Except String`, the error string recording the exception kind.
* `src/fastapi_aws/__main__.py`: `remove_keys_by_pattern`,
  `make_public_api_schema`, `add_cors_to_openapi`.
* `src/fastapi_aws/integrations.py`: `mock_integration`,
  `lambda_integration`, `step_function_integration_base` and its two
  wrappers, `s3_integration`, `dynamodb_integration`.
* `src/fastapi_aws/authorizers.py`: the `AWSAuthorizer` hierarchy.
* `src/fastapi_aws/route.py`: `AWSAPIRoute.__init__` and the
  `_default_*` integration builders it dispatches to.
-/

/-! # JSON-like values (Python dicts / lists / scalars) -/

inductive JValue where
  | null : JValue
  | bool : Bool → JValue
  | num : Int → JValue
  | str : String → JValue
  | arr : List JValue → JValue
  | obj : List (String × JValue) → JValue
deriving BEq, Repr

/-- A Python dict, in insertion order. -/
abbrev JDict := List (String × JValue)

/-- Python `d[k]` / `d.get(k)`: first binding of `k` in the dict. -/
def lookupKey (d : JDict) (k : String) : Option JValue :=
  match d with
  | [] => none
  | (k2, v) :: rest => if k2 == k then some v else lookupKey rest k

/-- Python `k in d`. -/
def hasKey (d : JDict) (k : String) : Bool :=
  (lookupKey d k).isSome

/-- Python `d[k] = v`: replace the value in place if `k` is present
(keeping its position), otherwise append the new binding at the end.
(Real dicts never hold a key twice, so replacing the first occurrence
is exact.) -/
def dictSet (d : JDict) (k : String) (v : JValue) : JDict :=
  match d with
  | [] => [(k, v)]
  | (k1, v1) :: t => if k1 == k then (k, v) :: t else (k1, v1) :: dictSet t k v

/-- Python `d.update(u)`. -/
def dictUpdate (d : JDict) (u : JDict) : JDict :=
  u.foldl (fun acc kv => dictSet acc kv.1 kv.2) d

/-! # `json.dumps` (as used on the small ASCII templates in this repo) -/

def jsonEscapeChar (c : Char) : String :=
  if c = '"' then "\\\""
  else if c = '\\' then "\\\\"
  else if c = '\n' then "\\n"
  else if c = '\t' then "\\t"
  else if c = '\r' then "\\r"
  else String.singleton c

def jsonQuote (s : String) : String :=
  "\"" ++ String.join (s.data.map jsonEscapeChar) ++ "\""

mutual
def jsonDumps : JValue → String
  | .null => "null"
  | .bool b => if b then "true" else "false"
  | .num n => toString n
  | .str s => jsonQuote s
  | .arr xs => "[" ++ jsonDumpsList xs ++ "]"
  | .obj kvs => "\x7b" ++ jsonDumpsKVs kvs ++ "\x7d"

def jsonDumpsList : List JValue → String
  | [] => ""
  | [x] => jsonDumps x
  | x :: xs => jsonDumps x ++ ", " ++ jsonDumpsList xs

def jsonDumpsKVs : List (String × JValue) → String
  | [] => ""
  | [(k, v)] => jsonQuote k ++ ": " ++ jsonDumps v
  | (k, v) :: kvs => jsonQuote k ++ ": " ++ jsonDumps v ++ ", " ++ jsonDumpsKVs kvs
end

/-! # `fnmatch.fnmatch` (POSIX: case-sensitive), for patterns built from
literal characters, `?` and `*` — the repository only ever uses the
pattern `x-amazon-apigateway-*`. -/

def globMatchL (p : List Char) (s : List Char) : Bool :=
  match p, s with
  | [], [] => true
  | [], _ :: _ => false
  | '*' :: ps, s =>
    globMatchL ps s ||
      (match s with
       | [] => false
       | _ :: s2 => globMatchL ('*' :: ps) s2)
  | '?' :: ps, _ :: s2 => globMatchL ps s2
  | '?' :: _, [] => false
  | c :: ps, c2 :: s2 => c == c2 && globMatchL ps s2
  | _ :: _, [] => false
termination_by (s.length, p.length)

def fnmatch (name pattern : String) : Bool :=
  globMatchL pattern.data name.data

/-! # `__main__.remove_keys_by_pattern` and `make_public_api_schema`

Python mutates the document in place; we return the new document.
Deleting the matching keys of a dict and then recursing into the
remaining values is fused into one pass over the bindings. -/

mutual
def remove_keys_by_pattern (pattern : String) : JValue → JValue
  | .obj kvs => .obj (removeKeysKVs pattern kvs)
  | .arr xs => .arr (removeKeysList pattern xs)
  | v => v

def removeKeysList (pattern : String) : List JValue → List JValue
  | [] => []
  | x :: xs => remove_keys_by_pattern pattern x :: removeKeysList pattern xs

def removeKeysKVs (pattern : String) : List (String × JValue) → List (String × JValue)
  | [] => []
  | (k, v) :: kvs =>
    if fnmatch k pattern then removeKeysKVs pattern kvs
    else (k, remove_keys_by_pattern pattern v) :: removeKeysKVs pattern kvs
end

/-- `make_public_api_schema`: scrub every `x-amazon-apigateway-*` key. -/
def make_public_api_schema (openapi_schema : JValue) : JValue :=
  remove_keys_by_pattern "x-amazon-apigateway-*" openapi_schema

/-! Checker: does the document contain, at any depth, a dict key matching
the pattern? -/

mutual
def hasMatchingKey (pattern : String) : JValue → Bool
  | .obj kvs => hasMatchingKeyKVs pattern kvs
  | .arr xs => hasMatchingKeyList pattern xs
  | _ => false

def hasMatchingKeyList (pattern : String) : List JValue → Bool
  | [] => false
  | x :: xs => hasMatchingKey pattern x || hasMatchingKeyList pattern xs

def hasMatchingKeyKVs (pattern : String) : List (String × JValue) → Bool
  | [] => false
  | (k, v) :: kvs =>
    fnmatch k pattern || hasMatchingKey pattern v || hasMatchingKeyKVs pattern kvs
end

/-! # A member-wise induction principle for `JValue` -/

theorem JValue.memInduct (motive : JValue → Prop)
    (hnull : motive .null) (hbool : ∀ b, motive (.bool b))
    (hnum : ∀ n, motive (.num n)) (hstr : ∀ s, motive (.str s))
    (harr : ∀ xs, (∀ x ∈ xs, motive x) → motive (.arr xs))
    (hobj : ∀ kvs, (∀ kv ∈ kvs, motive kv.2) → motive (.obj kvs)) :
    ∀ v, motive v := by
  have key : ∀ n, ∀ v : JValue, sizeOf v ≤ n → motive v := by
    intro n
    induction n with
    | zero => intro v h; cases v <;> simp at h
    | succ n ih =>
      intro v h
      cases v with
      | null => exact hnull
      | bool b => exact hbool b
      | num m => exact hnum m
      | str s => exact hstr s
      | arr xs =>
        apply harr
        intro x hx
        apply ih
        have h1 : sizeOf x < sizeOf xs := List.sizeOf_lt_of_mem hx
        simp at h
        omega
      | obj kvs =>
        apply hobj
        intro kv hkv
        apply ih
        have h1 : sizeOf kv < sizeOf kvs := List.sizeOf_lt_of_mem hkv
        have h2 : sizeOf kv.2 < sizeOf kv := by
          obtain ⟨a, b⟩ := kv
          simp
        simp at h
        omega
  intro v
  exact key (sizeOf v) v (le_refl _)

/-! # C2: `make_public` scrubs every matching key and is idempotent -/

theorem removeKeysKVs_clean (pattern : String) (kvs : List (String × JValue))
    (ih : ∀ kv ∈ kvs, hasMatchingKey pattern (remove_keys_by_pattern pattern kv.2) = false) :
    hasMatchingKeyKVs pattern (removeKeysKVs pattern kvs) = false := by
  induction kvs with
  | nil => simp [removeKeysKVs, hasMatchingKeyKVs]
  | cons kv rest ihrest =>
    obtain ⟨k, v⟩ := kv
    have hv := ih ⟨k, v⟩ (by simp)
    have hrest := ihrest (fun kv2 h2 => ih kv2 (List.mem_cons_of_mem _ h2))
    by_cases hk : fnmatch k pattern
    · simp [removeKeysKVs, hk, hrest]
    · simp [removeKeysKVs, hk, hasMatchingKeyKVs, hrest]
      exact hv

theorem removeKeysList_clean (pattern : String) (xs : List JValue)
    (ih : ∀ x ∈ xs, hasMatchingKey pattern (remove_keys_by_pattern pattern x) = false) :
    hasMatchingKeyList pattern (removeKeysList pattern xs) = false := by
  induction xs with
  | nil => simp [removeKeysList, hasMatchingKeyList]
  | cons x rest ihrest =>
    have hx := ih x (by simp)
    have hrest := ihrest (fun x2 h2 => ih x2 (List.mem_cons_of_mem _ h2))
    simp [removeKeysList, hasMatchingKeyList, hx, hrest]

theorem remove_keys_clean (pattern : String) (v : JValue) :
    hasMatchingKey pattern (remove_keys_by_pattern pattern v) = false := by
  induction v using JValue.memInduct with
  | hnull => simp [remove_keys_by_pattern, hasMatchingKey]
  | hbool b => simp [remove_keys_by_pattern, hasMatchingKey]
  | hnum n => simp [remove_keys_by_pattern, hasMatchingKey]
  | hstr s => simp [remove_keys_by_pattern, hasMatchingKey]
  | harr xs ih =>
    simp only [remove_keys_by_pattern, hasMatchingKey]
    exact removeKeysList_clean pattern xs ih
  | hobj kvs ih =>
    simp only [remove_keys_by_pattern, hasMatchingKey]
    exact removeKeysKVs_clean pattern kvs ih

theorem removeKeysKVs_idem (pattern : String) (kvs : List (String × JValue))
    (ih : ∀ kv ∈ kvs,
      remove_keys_by_pattern pattern (remove_keys_by_pattern pattern kv.2)
        = remove_keys_by_pattern pattern kv.2) :
    removeKeysKVs pattern (removeKeysKVs pattern kvs) = removeKeysKVs pattern kvs := by
  induction kvs with
  | nil => simp [removeKeysKVs]
  | cons kv rest ihrest =>
    obtain ⟨k, v⟩ := kv
    have hv := ih ⟨k, v⟩ (by simp)
    have hrest := ihrest (fun kv2 h2 => ih kv2 (List.mem_cons_of_mem _ h2))
    by_cases hk : fnmatch k pattern
    · simp [removeKeysKVs, hk, hrest]
    · simp [removeKeysKVs, hk, hrest, hv]

theorem removeKeysList_idem (pattern : String) (xs : List JValue)
    (ih : ∀ x ∈ xs,
      remove_keys_by_pattern pattern (remove_keys_by_pattern pattern x)
        = remove_keys_by_pattern pattern x) :
    removeKeysList pattern (removeKeysList pattern xs) = removeKeysList pattern xs := by
  induction xs with
  | nil => simp [removeKeysList]
  | cons x rest ihrest =>
    have hx := ih x (by simp)
    have hrest := ihrest (fun x2 h2 => ih x2 (List.mem_cons_of_mem _ h2))
    simp [removeKeysList, hx, hrest]

theorem remove_keys_idem (pattern : String) (v : JValue) :
    remove_keys_by_pattern pattern (remove_keys_by_pattern pattern v)
      = remove_keys_by_pattern pattern v := by
  induction v using JValue.memInduct with
  | hnull => simp [remove_keys_by_pattern]
  | hbool b => simp [remove_keys_by_pattern]
  | hnum n => simp [remove_keys_by_pattern]
  | hstr s => simp [remove_keys_by_pattern]
  | harr xs ih =>
    simp only [remove_keys_by_pattern]
    exact congrArg JValue.arr (removeKeysList_idem pattern xs ih)
  | hobj kvs ih =>
    simp only [remove_keys_by_pattern]
    exact congrArg JValue.obj (removeKeysKVs_idem pattern kvs ih)

/-- C2: for every document (arbitrarily nested dicts and lists),
`make_public_api_schema` removes every key matching
`x-amazon-apigateway-*` at every nesting depth (it is a total Lean
function, so it never fails) and is idempotent:
`make_public (make_public d) = make_public d`. -/
theorem make_public_scrubs_all_and_idempotent (d : JValue) :
    hasMatchingKey "x-amazon-apigateway-*" (make_public_api_schema d) = false ∧
      make_public_api_schema (make_public_api_schema d) = make_public_api_schema d :=
  ⟨remove_keys_clean _ d, remove_keys_idem _ d⟩

/-! # Dynamically-typed Python values

`lambda_integration` type-checks its `path_parameters` argument at run
time (`isinstance(path_parameters, list)`), so that argument is embedded
as a dynamically-typed value. -/

inductive PyVal where
  | none : PyVal
  | str : String → PyVal
  | int : Int → PyVal
  | list : List PyVal → PyVal
deriving BEq, Repr

/-- Python truthiness (`if v:`). -/
def PyVal.truthy : PyVal → Bool
  | .none => false
  | .str s => !(s == "")
  | .int n => !(n == 0)
  | .list xs => !xs.isEmpty

def PyVal.isList : PyVal → Bool
  | .list _ => true
  | _ => false

/-- Python `"%s" % v` (`str(v)`); on lists, `repr` of the elements. -/
def PyVal.formatStr : PyVal → String
  | .none => "None"
  | .str s => s
  | .int n => toString n
  | .list xs => "[" ++ String.intercalate ", " (xs.map fun x =>
      match x with
      | .str s => "\x27" ++ s ++ "\x27"
      | .int n => toString n
      | .none => "None"
      | .list _ => "[...]") ++ "]"

/-- Python `s or default` for an optional string: `None` and `""` are
falsy and give the default. -/
def pyOr (o : Option String) (d : String) : String :=
  match o with
  | Option.none => d
  | some s => if s == "" then d else s

def isPrefixL : List Char → List Char → Bool
  | [], _ => true
  | _ :: _, [] => false
  | c :: p, c2 :: s => c == c2 && isPrefixL p s

def containsSubL (needle : List Char) : List Char → Bool
  | [] => isPrefixL needle []
  | c :: rest => isPrefixL needle (c :: rest) || containsSubL needle rest

/-- Python `needle in hay` on strings (substring test). -/
def strContainsSub (hay needle : String) : Bool :=
  containsSubL needle.data hay.data

def isOkE {α : Type} (e : Except String α) : Bool :=
  match e with
  | .ok _ => true
  | .error _ => false

/-! # `integrations.py`: the integration builders -/

/-- `mock_integration`: fixed-shape descriptor; ignores the caller's
`uri` and `iam_arn` entirely (the returned dict has `uri=""` and no
`credentials` key at all). -/
def mock_integration (uri iam_arn : String) (path_parameters : List String) : JDict :=
  [("uri", .str ""),
   ("integration_type", .str "mock"),
   ("request_template", .obj [("statusCode", .num 200)]),
   ("responses", .obj
     [("default", .obj
       [("statusCode", .num 501),
        ("responseTemplates", .obj
          [("application/json",
            .str (jsonDumps (.obj [("status", .str "not implemented")])))])])])]

/-- `lambda_integration`.  `path_parameters` is dynamically typed; a
truthy non-list raises `ValueError`, a truthy list (of anything — the
elements are merely `%s`-formatted) is accepted, and any falsy value is
skipped.  `request_template`/`responses_template` keep their Python
truthiness behaviour (`""` and `{}` count as absent). -/
def lambda_integration (uri iam_arn : String) (integration_type : String)
    (path_parameters : PyVal) (request_template : Option String)
    (responses_template : Option JDict) : Except String JDict :=
  if path_parameters.truthy then
    match path_parameters with
    | .list elems =>
      lambda_integration_core uri iam_arn integration_type
        (some (elems.map PyVal.formatStr)) request_template responses_template
    | _ => .error "ValueError: path_parameters must be a list of strings"
  else
    lambda_integration_core uri iam_arn integration_type Option.none
      request_template responses_template
where
  /-- the rest of the function body, after the `path_parameters` check;
  `names = some l` records a truthy list argument. -/
  lambda_integration_core (uri iam_arn integration_type : String)
      (names : Option (List String)) (request_template : Option String)
      (responses_template : Option JDict) : Except String JDict :=
    let request_parameters : JValue :=
      match names with
      | some l => .obj (l.map fun k =>
          ("integration.request.path." ++ k, .str ("method.request.path." ++ k)))
      | Option.none => .null
    let request_template_v : JValue :=
      match request_template with
      | some t => if t == "" then .str "" else .obj [("application/json", .str t)]
      | Option.none => .null
    let responses : JDict :=
      match responses_template with
      | some rt =>
        if rt.isEmpty then [("default", .obj [("statusCode", .str "200")])]
        else [("default", .obj (dictUpdate [("statusCode", .str "200")] rt))]
      | Option.none => [("default", .obj [("statusCode", .str "200")])]
    .ok [("uri", .str uri),
         ("integration_type", .str integration_type),
         ("http_method", .str "POST"),
         ("credentials", .str iam_arn),
         ("request_template", request_template_v),
         ("request_parameters", request_parameters),
         ("responses", .obj responses)]

/-- `"#set($output = $util.parseJson($input.path('$.output')))\n$output.body"` -/
def sfnResponseTemplate : String :=
  "#set($output = $util.parseJson($input.path(\x27$.output\x27)))\n$output.body"

/-- `step_function_integration_base`.  `mapping_template = None` defaults
to `$input.json('$')`; a dict is `json.dumps`-ed. -/
def step_function_integration_base (uri sfn_arn iam_arn : String)
    (mapping_template : Option JDict) : JDict :=
  let mt : String :=
    match mapping_template with
    | Option.none => "$input.json(\x27$\x27)"
    | some d => jsonDumps (.obj d)
  let request_template : JDict :=
    [("application/json",
      .str (jsonDumps (.obj [("input", .str mt),
                             ("stateMachineArn", .str sfn_arn),
                             ("region", .str "$\x7bregion\x7d")])))]
  let responses : JDict :=
    [("default", .obj
      [("statusCode", .str "200"),
       ("responseTemplates", .obj [("application/json", .str sfnResponseTemplate)])])]
  [("uri", .str uri),
   ("integration_type", .str "aws"),
   ("http_method", .str "POST"),
   ("credentials", .str iam_arn),
   ("request_template", .obj request_template),
   ("responses", .obj responses)]

def step_function_sync_integration (sfn_arn iam_arn : String)
    (path_parameters : Option (List String)) (mapping_template : Option JDict) : JDict :=
  step_function_integration_base
    "arn:aws:apigateway:$\x7bregion\x7d:states:action/StartSyncExecution"
    sfn_arn iam_arn mapping_template

def step_function_integration (sfn_arn iam_arn : String)
    (path_parameters : Option (List String)) (mapping_template : Option JDict) : JDict :=
  step_function_integration_base
    "arn:aws:apigateway:$\x7bregion\x7d:states:action/StartExecution"
    sfn_arn iam_arn mapping_template

/-- `s3_integration`.  The `assert` on `http_method` and the
`ValueError` when neither `object_key` nor `path_parameters` is truthy
become `Except.error`.  `responsesKw` models `kwargs.get("responses")`. -/
def s3_integration (bucket_name iam_arn : String)
    (path_parameters : Option (List String)) (http_method : String)
    (object_key : Option String) (responsesKw : Option JDict) : Except String JDict :=
  if !(http_method == "GET" || http_method == "PUT" || http_method == "DELETE") then
    .error "AssertionError: Invalid HTTP method for S3 integration"
  else
    let uri0 := "arn:aws:apigateway:$\x7bregion\x7d:s3:path/" ++ bucket_name
    let uriE : Except String String :=
      match object_key with
      | some k =>
        if k == "" then
          match path_parameters with
          | some pp =>
            if pp.isEmpty then
              .error "ValueError: expected one of: \x27object_key\x27, \x27path_parameters\x27"
            else .ok (String.intercalate "/" (uri0 :: pp))
          | Option.none =>
            .error "ValueError: expected one of: \x27object_key\x27, \x27path_parameters\x27"
        else .ok (uri0 ++ "/" ++ k)
      | Option.none =>
        match path_parameters with
        | some pp =>
          if pp.isEmpty then
            .error "ValueError: expected one of: \x27object_key\x27, \x27path_parameters\x27"
          else .ok (String.intercalate "/" (uri0 :: pp))
        | Option.none =>
          .error "ValueError: expected one of: \x27object_key\x27, \x27path_parameters\x27"
    match uriE with
    | .error e => .error e
    | .ok uri =>
      let default_response_parameters : JDict :=
        [("default", .obj [("statusCode", .str "200")]),
         ("4xx", .obj [("statusCode", .str "404")]),
         ("403", .obj [("statusCode", .str "404")]),
         ("404", .obj [("statusCode", .str "404")])]
      let responses : JDict :=
        match responsesKw with
        | some r => if r.isEmpty then default_response_parameters else r
        | Option.none => default_response_parameters
      .ok [("uri", .str uri),
           ("http_method", .str http_method),
           ("integration_type", .str "aws"),
           ("credentials", .str iam_arn),
           ("responses", .obj responses)]

/-- `default_pk_pattern` in `dynamodb_integration`. -/
def dynamodb_default_pk_pattern : String :=
  "$input.path(\x27$.owner\x27)#$input.path(\x27$.project\x27)"

/-- `default_sk_pattern` in `dynamodb_integration`. -/
def dynamodb_default_sk_pattern : String :=
  "$input.path(\x27$.project\x27)#$input.path(\x27$.eventname\x27)#$input.path(\x27$.timestamp\x27)"

/-- the default `fields_block` in `dynamodb_integration`. -/
def dynamodb_default_fields : String :=
  "\"timestamp\": \x7b \"S\": \"$context.requestTime\" \x7d"

/-- `create_put_item_mapping_template` (inner function). -/
def create_put_item_mapping_template (table_name : String) (ttl : Nat)
    (pk_pattern sk_pattern fields : String) : String :=
  "\n#set($body = $util.parseJson($input.body))\n\n#set($nowEpochSeconds = $context.requestTimeEpoch / 1000)\n#set($expiration = $nowEpochSeconds + "
    ++ toString ttl
    ++ ")\n\n\x7b\n  \"TableName\": \"" ++ table_name
    ++ "\",\n  \"Item\": \x7b\n    \"PK\": \x7b \"S\": \"" ++ pk_pattern
    ++ "\" \x7d,\n    \"SK\": \x7b \"S\": \"" ++ sk_pattern
    ++ "\" \x7d,\n    " ++ fields ++ "\n  \x7d\n\x7d"

/-- `create_query_mapping_template` (inner function). -/
def create_query_mapping_template (table_name query_expr : String) : String :=
  "\n\x7b\n    \"TableName\": \"" ++ table_name ++ "\", " ++ query_expr ++ "\n\x7d"

/-- `"$input.params('origin')"`, the needle of the origin-forwarding check. -/
def originNeedle : String := "$input.params(\x27origin\x27)"

def dynamodbResponses : JDict :=
  [("default", .obj [("statusCode", .str "200")]),
   ("4xx", .obj [("statusCode", .str "400")]),
   ("5xx", .obj [("statusCode", .str "500")])]

/-- `dynamodb_integration`.  `assert mapping_template is None` and
`assert query_expr is not None` and the unsupported-method `ValueError`
become `Except.error`; `request_parameters` models
`kwargs.pop("request_parameters", {})`. -/
def dynamodb_integration (table_name iam_arn : String)
    (path_parameters : Option (List String)) (http_method : String)
    (mapping_template : Option String)
    (pk_pattern sk_pattern field_patterns query_expr : Option String)
    (request_parameters : Option JDict) : Except String JDict :=
  if mapping_template.isSome then .error "AssertionError: mapping_template must be none"
  else
    let branch : Except String (String × String) :=
      if http_method == "POST" then
        .ok ("arn:aws:apigateway:$\x7bregion\x7d:dynamodb:action/PutItem",
             create_put_item_mapping_template table_name 2592000
               (pyOr pk_pattern dynamodb_default_pk_pattern)
               (pyOr sk_pattern dynamodb_default_sk_pattern)
               (pyOr field_patterns dynamodb_default_fields))
      else if http_method == "GET" then
        match query_expr with
        | Option.none => .error "AssertionError"
        | some qe =>
          .ok ("arn:aws:apigateway:$\x7bregion\x7d:dynamodb:action/Query",
               create_query_mapping_template table_name qe)
      else
        .error ("ValueError: Unsupported HTTP method " ++ http_method
          ++ " for DynamoDB integration. Only POST (PutItem) or GET (Query) is allowed.")
    match branch with
    | .error e => .error e
    | .ok (uri, mt) =>
      let request_template : JDict := [("application/json", .str mt)]
      let rp0 : JDict := request_parameters.getD []
      let originReferenced : Bool :=
        strContainsSub (pk_pattern.getD "") originNeedle ||
        strContainsSub (sk_pattern.getD "") originNeedle ||
        strContainsSub (field_patterns.getD "") originNeedle ||
        strContainsSub (query_expr.getD "") originNeedle
      let rp : JDict :=
        if originReferenced then
          dictUpdate rp0
            [("integration.request.header.origin", .str "method.request.header.origin")]
        else rp0
      .ok [("uri", .str uri),
           ("integration_type", .str "aws"),
           ("http_method", .str "POST"),
           ("credentials", .str iam_arn),
           ("request_template", .obj request_template),
           ("responses", .obj dynamodbResponses),
           ("request_parameters", .obj rp)]

set_option maxRecDepth 8000

/-! # C3: which identifier fields are passed through verbatim -/

/-- C3, counterexample: the mock builder is a supported integration kind,
yet it discards the caller-supplied target identifier — the returned
descriptor has `uri = ""` instead of the caller's `"X"` — and carries no
`credentials` key at all.  So it is false that for every supported kind
the descriptor's `target_uri` and `credential_arn` equal the
caller-supplied values. -/
theorem mock_discards_caller_identifiers :
    lookupKey (mock_integration "X" "I" []) "uri" = some (.str "") ∧
    JValue.str "" ≠ JValue.str "X" ∧
    lookupKey (mock_integration "X" "I" []) "credentials" = Option.none := by
  refine ⟨rfl, ?_, rfl⟩
  simp

/-- C3, amended: the Lambda builder passes `uri`, `integration_type` and
`credentials` through verbatim; the step-function, S3 and DynamoDB
builders pass `credentials` through verbatim but construct the `uri`
(a fixed Step Functions action ARN, resp. a path derived from the bucket
or table); the mock builder fixes `uri = ""` and omits `credentials`. -/
theorem integration_identifier_fields (uri iam itype sfn tbl bucket key : String)
    (hk : key ≠ "") :
    (lambda_integration uri iam itype PyVal.none Option.none Option.none).map
        (fun d => (lookupKey d "uri", lookupKey d "integration_type", lookupKey d "credentials"))
      = .ok (some (.str uri), some (.str itype), some (.str iam)) ∧
    lookupKey (step_function_sync_integration sfn iam Option.none Option.none) "credentials"
      = some (.str iam) ∧
    lookupKey (step_function_sync_integration sfn iam Option.none Option.none) "uri"
      = some (.str "arn:aws:apigateway:$\x7bregion\x7d:states:action/StartSyncExecution") ∧
    lookupKey (step_function_integration sfn iam Option.none Option.none) "credentials"
      = some (.str iam) ∧
    lookupKey (step_function_integration sfn iam Option.none Option.none) "uri"
      = some (.str "arn:aws:apigateway:$\x7bregion\x7d:states:action/StartExecution") ∧
    (s3_integration bucket iam Option.none "GET" (some key) Option.none).map
        (fun d => (lookupKey d "credentials", lookupKey d "integration_type"))
      = .ok (some (.str iam), some (.str "aws")) ∧
    (dynamodb_integration tbl iam Option.none "POST" Option.none Option.none Option.none
        Option.none Option.none Option.none).map
        (fun d => (lookupKey d "credentials", lookupKey d "integration_type"))
      = .ok (some (.str iam), some (.str "aws")) ∧
    lookupKey (mock_integration uri iam []) "uri" = some (.str "") ∧
    lookupKey (mock_integration uri iam []) "credentials" = Option.none := by
  refine ⟨rfl, rfl, rfl, rfl, rfl, ?_, rfl, rfl, rfl⟩
  have hk2 : (key == "") = false := beq_eq_false_iff_ne.mpr hk
  simp [s3_integration, hk2, lookupKey, Except.map]

theorem integration_identifier_fields_witness :
    (lambda_integration "U" "I" "aws" PyVal.none Option.none Option.none).map
        (fun d => (lookupKey d "uri", lookupKey d "integration_type", lookupKey d "credentials"))
      = .ok (some (.str "U"), some (.str "aws"), some (.str "I")) :=
  (integration_identifier_fields "U" "I" "aws" "S" "T" "B" "K" (by decide)).1

/-! # C4: the S3 builder's object resolution -/

/-- C4: with neither `object_key` nor `path_parameters` the S3 builder
fails with `ValueError`; with `object_key = key` on bucket `bucket` the
descriptor's `uri` is `arn:aws:apigateway:${region}:s3:path/<bucket>/<key>`
(so for `K` on `B` it ends in `s3:path/B/K`); and exactly one of the two
sources resolves the object — when both are supplied, `object_key` alone
is used and `path_parameters` is ignored. -/
theorem s3_object_resolution (bucket iam key : String) (hk : key ≠ "") :
    s3_integration bucket iam Option.none "GET" Option.none Option.none
      = .error "ValueError: expected one of: \x27object_key\x27, \x27path_parameters\x27" ∧
    (s3_integration bucket iam Option.none "GET" (some key) Option.none).map
        (fun d => lookupKey d "uri")
      = .ok (some (.str ("arn:aws:apigateway:$\x7bregion\x7d:s3:path/" ++ bucket ++ "/" ++ key))) ∧
    s3_integration bucket iam (some ["p"]) "GET" (some key) Option.none
      = s3_integration bucket iam Option.none "GET" (some key) Option.none := by
  have hk2 : (key == "") = false := beq_eq_false_iff_ne.mpr hk
  refine ⟨rfl, ?_, ?_⟩
  · simp [s3_integration, hk2, lookupKey, Except.map]
  · simp [s3_integration, hk2]

theorem s3_object_resolution_witness :
    (s3_integration "B" "I" Option.none "GET" (some "K") Option.none).map
        (fun d => lookupKey d "uri")
      = .ok (some (.str ("arn:aws:apigateway:$\x7bregion\x7d:s3:path/" ++ "B" ++ "/" ++ "K"))) :=
  (s3_object_resolution "B" "I" "K" (by decide)).2.1

/-! # C5: the DynamoDB builder's method contract -/

/-- C5: POST with no `mapping_template` produces a request mapping
template built from the default partition-key and sort-key patterns
(both occur in the template text); GET without `query_expr` always fails
(`assert query_expr is not None`); and any other HTTP method raises a
`ValueError` at build time. -/
theorem dynamodb_method_contract (tbl iam m : String)
    (hm1 : m ≠ "POST") (hm2 : m ≠ "GET") :
    (dynamodb_integration tbl iam Option.none "POST" Option.none Option.none Option.none
        Option.none Option.none Option.none).map (fun d => lookupKey d "request_template")
      = .ok (some (.obj [("application/json",
          .str (create_put_item_mapping_template tbl 2592000
            dynamodb_default_pk_pattern dynamodb_default_sk_pattern dynamodb_default_fields))])) ∧
    strContainsSub
        (create_put_item_mapping_template "T" 2592000
          dynamodb_default_pk_pattern dynamodb_default_sk_pattern dynamodb_default_fields)
        dynamodb_default_pk_pattern = true ∧
    strContainsSub
        (create_put_item_mapping_template "T" 2592000
          dynamodb_default_pk_pattern dynamodb_default_sk_pattern dynamodb_default_fields)
        dynamodb_default_sk_pattern = true ∧
    dynamodb_integration tbl iam Option.none "GET" Option.none Option.none Option.none
        Option.none Option.none Option.none = .error "AssertionError" ∧
    dynamodb_integration tbl iam Option.none m Option.none Option.none Option.none
        Option.none Option.none Option.none
      = .error ("ValueError: Unsupported HTTP method " ++ m
          ++ " for DynamoDB integration. Only POST (PutItem) or GET (Query) is allowed.") := by
  have h1 : (m == "POST") = false := beq_eq_false_iff_ne.mpr hm1
  have h2 : (m == "GET") = false := beq_eq_false_iff_ne.mpr hm2
  refine ⟨rfl, by decide, by decide, rfl, ?_⟩
  simp [dynamodb_integration, h1, h2]

theorem dynamodb_method_contract_witness :
    dynamodb_integration "T" "I" Option.none "PUT" Option.none Option.none Option.none
        Option.none Option.none Option.none
      = .error ("ValueError: Unsupported HTTP method " ++ "PUT"
          ++ " for DynamoDB integration. Only POST (PutItem) or GET (Query) is allowed.") :=
  (dynamodb_method_contract "T" "I" "PUT" (by decide) (by decide)).2.2.2.2

/-! # C7: the Lambda builder's path-parameter type check -/

/-- C7, counterexample: `path_parameters = [1]` is supplied and is not a
list of strings, yet the builder succeeds (the code only checks
`isinstance(path_parameters, list)`); and `path_parameters = 0` is
supplied, is not a list of strings, and is also accepted because it is
falsy and the check is never reached. -/
theorem lambda_nonstring_path_parameters_accepted :
    isOkE (lambda_integration "U" "I" "aws_proxy" (PyVal.list [PyVal.int 1])
        Option.none Option.none) = true ∧
    isOkE (lambda_integration "U" "I" "aws_proxy" (PyVal.int 0)
        Option.none Option.none) = true :=
  ⟨rfl, rfl⟩

/-- C7, amended: the Lambda builder raises `ValueError` exactly when the
path-parameter argument is truthy and not a list; any list (regardless
of element type — elements are merely `%s`-formatted) and any falsy
argument are accepted. -/
theorem lambda_path_parameters_check (u i t : String) (pp : PyVal)
    (rt : Option String) (resp : Option JDict) :
    isOkE (lambda_integration u i t pp rt resp) = (!pp.truthy || pp.isList) := by
  cases pp with
  | none => rfl
  | str s =>
    by_cases h : s = ""
    · subst h; rfl
    · have h2 : (s == "") = false := beq_eq_false_iff_ne.mpr h
      simp [lambda_integration, PyVal.truthy, PyVal.isList, h2, isOkE]
  | int n =>
    by_cases h : n = 0
    · subst h; rfl
    · have h2 : (n == 0) = false := beq_eq_false_iff_ne.mpr h
      simp [lambda_integration, PyVal.truthy, PyVal.isList, h2, isOkE]
  | list xs =>
    cases xs with
    | nil => rfl
    | cons x rest => rfl

/-! # C9: DynamoDB descriptors always carry `http_method = "POST"` -/

/-- C9: every successful call of the DynamoDB builder returns a
descriptor whose `http_method` field is `"POST"`, even for the GET
(Query) variant; only the action URI (`PutItem` vs `Query`)
distinguishes the two variants. -/
theorem dynamodb_http_method_always_post (tbl iam : String)
    (pp : Option (List String)) (m : String) (mt pk sk fp qe : Option String)
    (rp : Option JDict) (d : JDict)
    (h : dynamodb_integration tbl iam pp m mt pk sk fp qe rp = .ok d) :
    lookupKey d "http_method" = some (.str "POST") ∧
    (m = "GET" →
      lookupKey d "uri" = some (.str "arn:aws:apigateway:$\x7bregion\x7d:dynamodb:action/Query")) ∧
    (m = "POST" →
      lookupKey d "uri" = some (.str "arn:aws:apigateway:$\x7bregion\x7d:dynamodb:action/PutItem")) := by
  cases mt with
  | some v => simp [dynamodb_integration] at h
  | none =>
    by_cases hp : m = "POST"
    · subst hp
      simp [dynamodb_integration] at h
      subst h
      exact ⟨rfl, fun hx => absurd hx (by decide), fun _ => rfl⟩
    · have hp2 : (m == "POST") = false := beq_eq_false_iff_ne.mpr hp
      by_cases hg : m = "GET"
      · subst hg
        cases qe with
        | none => simp [dynamodb_integration, hp2] at h
        | some q =>
          simp [dynamodb_integration, hp2] at h
          subst h
          exact ⟨rfl, fun _ => rfl, fun hx => absurd hx (by decide)⟩
      · have hg2 : (m == "GET") = false := beq_eq_false_iff_ne.mpr hg
        simp [dynamodb_integration, hp2, hg2] at h

theorem dynamodb_http_method_always_post_witness :
    lookupKey ((dynamodb_integration "T" "I" Option.none "GET" Option.none Option.none
        Option.none Option.none (some "KeyConditionExpression")
        Option.none).toOption.getD []) "http_method" = some (.str "POST") :=
  (dynamodb_http_method_always_post "T" "I" Option.none "GET" Option.none Option.none
    Option.none Option.none (some "KeyConditionExpression") Option.none _ rfl).1

/-! # `authorizers.py`: the `AWSAuthorizer` hierarchy

Python creates the security-scheme descriptor inside the base
constructor (`self.model = self._create_model()`), dispatching
dynamically to the subclass override.  The embedding passes the
override as a function argument; its `String` parameter is
`self.header_name` as set by the base constructor just before the
call (`header_name or "Authorization"` — note the base constructor is
always invoked by the subclasses without a `header_name`, so at model
creation time `self.header_name` is always `"Authorization"`). -/

structure AWSAuthorizerState where
  scheme_name : String
  auto_error : Bool
  authorizer_type : String
  header_name : String
  model : JDict

/-- `AWSAuthorizer.__init__`. -/
def AWSAuthorizer_init (create_model : String → Except String JDict)
    (authorizer_name authorizer_type : String) (auto_error : Bool)
    (header_name : Option String) : Except String AWSAuthorizerState :=
  if !(authorizer_type == "token" || authorizer_type == "request"
      || authorizer_type == "cognito_user_pools") then
    .error "AssertionError"
  else
    let hn := pyOr header_name "Authorization"
    match create_model hn with
    | .error e => .error e
    | .ok m =>
      .ok { scheme_name := authorizer_name, auto_error := auto_error,
            authorizer_type := authorizer_type, header_name := hn, model := m }

/-- Constructing the base class itself: `_create_model` raises
`NotImplementedError`. -/
def AWSAuthorizer_base_init (authorizer_name authorizer_type : String)
    (auto_error : Bool) (header_name : Option String) : Except String AWSAuthorizerState :=
  AWSAuthorizer_init (fun _ => .error "NotImplementedError")
    authorizer_name authorizer_type auto_error header_name

/-- `CognitoAuthorizer._create_model`. -/
def CognitoAuthorizer_create_model (authorizer_type user_pool_arn : String) :
    Except String JDict :=
  .ok [("type", .str "apiKey"), ("in", .str "header"), ("name", .str "Authorization"),
       ("x-amazon-apigateway-authtype", .str "cognito_user_pools"),
       ("x-amazon-apigateway-authorizer", .obj
         [("type", .str authorizer_type),
          ("providerARNs", .arr [.str user_pool_arn])])]

/-- `CognitoAuthorizer.__init__`: `user_pool_arn or DEFAULT_USER_POOL_ARN`,
then `super().__init__(authorizer_name, "cognito_user_pools", auto_error)`. -/
def CognitoAuthorizer_init (authorizer_name : String) (auto_error : Bool)
    (user_pool_arn : Option String) : Except String AWSAuthorizerState :=
  let arn := pyOr user_pool_arn "$\x7bcognito_user_pool_arn\x7d"
  AWSAuthorizer_init (fun _ => CognitoAuthorizer_create_model "cognito_user_pools" arn)
    authorizer_name "cognito_user_pools" auto_error Option.none

/-- `APIKeyAuthorizer.__init__`: forwards to the base with type `"token"`
(the `header_name` argument is accepted but never forwarded), and its own
`_create_model` override raises `NotImplementedError` again. -/
def APIKeyAuthorizer_init (authorizer_name : String) (auto_error : Bool)
    (header_name : Option String) : Except String AWSAuthorizerState :=
  AWSAuthorizer_init (fun _ => .error "NotImplementedError")
    authorizer_name "token" auto_error Option.none

/-- `LambdaAuthorizer._create_model`; its `String` argument is
`self.header_name` at call time. -/
def LambdaAuthorizer_create_model (authorizer_type : String) (header_name : String)
    (aws_lambda_uri aws_iam_role_arn : String) : Except String JDict :=
  let authorizer_params : JDict :=
    [("type", .str authorizer_type),
     ("authorizerUri", .str aws_lambda_uri),
     ("authorizerCredentials", .str aws_iam_role_arn),
     ("identityValidationExpression", .str "^x-[a-z]+"),
     ("authorizerResultTtlInSeconds", .num 60)]
  let authorizer_params :=
    if authorizer_type == "request" then
      dictUpdate authorizer_params
        [("identitySource", .str ("method.request.header." ++ header_name))]
    else authorizer_params
  .ok [("type", .str "apiKey"),
       ("name", .str (if header_name == "" then "Authorization" else header_name)),
       ("in", .str "header"),
       ("x-amazon-apigateway-authtype", .str "custom"),
       ("x-amazon-apigateway-authorizer", .obj authorizer_params)]

/-- `LambdaAuthorizer.__init__`: asserts both ARNs are present, then
`super().__init__(authorizer_name, "request", auto_error=auto_error)` —
the caller's `header_name` is stored but immediately overwritten with
`"Authorization"` by the base constructor before `_create_model` runs,
so the `assert self.header_name is not None` inside the override always
passes. -/
def LambdaAuthorizer_init (authorizer_name : String) (auto_error : Bool)
    (header_name : Option String) (aws_lambda_uri aws_iam_role_arn : Option String) :
    Except String AWSAuthorizerState :=
  match aws_lambda_uri, aws_iam_role_arn with
  | Option.none, _ => .error "AssertionError"
  | _, Option.none => .error "AssertionError"
  | some uri, some iam =>
    AWSAuthorizer_init (fun hn => LambdaAuthorizer_create_model "request" hn uri iam)
      authorizer_name "request" auto_error Option.none

/-! # C8: which authorizers construct successfully -/

/-- C8, counterexample: `APIKeyAuthorizer` is a concrete variant that
does override descriptor creation, yet constructing it fails with
`NotImplementedError`, because its override itself raises
`NotImplementedError`. -/
theorem apikey_authorizer_construction_fails :
    APIKeyAuthorizer_init "auth" true Option.none = .error "NotImplementedError" :=
  rfl

/-- C8, amended: constructing the base authorizer (with any valid
authorizer type) fails with `NotImplementedError` — the descriptor is
created inside the constructor; `CognitoAuthorizer` and
`LambdaAuthorizer` (given its two required ARNs) construct successfully;
`APIKeyAuthorizer`, whose override raises again, also fails with
`NotImplementedError`. -/
theorem authorizer_construction_contract (name : String) (ae : Bool)
    (hn upool uri iam : Option String) (t : String)
    (ht : t = "token" ∨ t = "request" ∨ t = "cognito_user_pools") :
    AWSAuthorizer_base_init name t ae hn = .error "NotImplementedError" ∧
    isOkE (CognitoAuthorizer_init name ae upool) = true ∧
    (uri ≠ Option.none → iam ≠ Option.none →
      isOkE (LambdaAuthorizer_init name ae hn uri iam) = true) ∧
    APIKeyAuthorizer_init name ae hn = .error "NotImplementedError" := by
  refine ⟨?_, ?_, ?_, rfl⟩
  · rcases ht with h | h | h <;> subst h <;> rfl
  · cases upool with
    | none => rfl
    | some s =>
      by_cases h : s = ""
      · subst h; rfl
      · have h2 : (s == "") = false := beq_eq_false_iff_ne.mpr h
        simp [CognitoAuthorizer_init, AWSAuthorizer_init, pyOr, h2,
          CognitoAuthorizer_create_model, isOkE]
  · intro hu hi
    cases uri with
    | none => exact absurd rfl hu
    | some u =>
      cases iam with
      | none => exact absurd rfl hi
      | some i => rfl

theorem authorizer_construction_contract_witness :
    AWSAuthorizer_base_init "auth" "token" true Option.none
      = .error "NotImplementedError" :=
  (authorizer_construction_contract "auth" true Option.none Option.none
    (some "U") (some "R") "token" (Or.inl rfl)).1

/-! # `route.py`: `AWSAPIRoute.__init__` and its default builders -/

/-- the right-brace character -/
def rbraceC : Char := '\x7d'

/-- the left-brace character -/
def lbraceC : Char := '\x7b'

/-- the field name of a replacement field: the part before any `!`
(conversion) or `:` (format spec). -/
def formatFieldName (cs : List Char) : String :=
  String.mk (cs.takeWhile (fun c => !(c == ':') && !(c == '!')))

mutual
/-- `string.Formatter().parse`, reduced to the field names:
`{name}` yields `name`, `{{`/`}}` are brace escapes, empty field names
(`{}`) are filtered out by `_extract_path_parameters`'s `if fname`.
Malformed brace syntax raises `ValueError` exactly as in Python: a
trailing `{`, an unterminated replacement field, or a lone `}`.
(Format specs with nested braces, which cannot occur in HTTP path
templates, are not modelled.) -/
def extractFieldsL : List Char → Except String (List String)
  | [] => .ok []
  | '\x7b' :: '\x7b' :: rest => extractFieldsL rest
  | '\x7b' :: rest => extractFieldInner rest []
  | '\x7d' :: '\x7d' :: rest => extractFieldsL rest
  | '\x7d' :: _ => .error "ValueError: Single \x27\x7d\x27 encountered in format string"
  | _ :: rest => extractFieldsL rest

def extractFieldInner : List Char → List Char → Except String (List String)
  | [], acc =>
    if acc.isEmpty then
      .error "ValueError: Single \x27\x7b\x27 encountered in format string"
    else
      .error "ValueError: expected \x27\x7d\x27 before end of string"
  | '\x7d' :: rest, acc =>
    (match extractFieldsL rest with
     | .error e => .error e
     | .ok tail =>
       let fname := formatFieldName acc.reverse
       .ok (if fname == "" then tail else fname :: tail))
  | c :: rest, acc => extractFieldInner rest (c :: acc)
end

/-- `AWSAPIRoute._extract_path_parameters`: raises whatever
`Formatter().parse` raises. -/
def extract_path_parameters (path : String) : Except String (List String) :=
  extractFieldsL path.data

/-- Python `None`-or-string attribute as a JSON value. -/
def optJStr (o : Option String) : JValue :=
  match o with
  | Option.none => .null
  | some s => .str s

/-- Python truthiness of an optional-string attribute. -/
def truthyOptStr (o : Option String) : Bool :=
  match o with
  | Option.none => false
  | some s => !(s == "")

/-- `AWSAPIRoute._create_integration`: wraps the request/response
templates into the `x-amazon-apigateway-integration` block; the request
template is `json.dumps`-ed.  `assert integration_type in ("aws", "aws_proxy")`
becomes `Except.error`. -/
def route_create_integration (uri : String) (integration_type : String)
    (credentials : JValue) (request_template : JDict)
    (response_template : JValue) : Except String JDict :=
  if !(integration_type == "aws" || integration_type == "aws_proxy") then
    .error "AssertionError"
  else
    .ok [("x-amazon-apigateway-integration", .obj
      [("uri", .str uri),
       ("httpMethod", .str "POST"),
       ("type", .str integration_type),
       ("credentials", credentials),
       ("requestTemplates", .obj
         [("application/json", .str (jsonDumps (.obj request_template)))]),
       ("responses", response_template)])]

/-- `AWSAPIRoute._default_lambda_call` (here `path_parameters` comes from
`_extract_path_parameters`, so it is always a list and the
`isinstance(path_parameters, list)` check always passes). -/
def route_default_lambda_call (uri : String) (iam_arn : Option String)
    (path_parameters : List String) : Except String JDict :=
  let request_template : JDict :=
    [("body", .str "$input.json(\x27$\x27)"),
     ("httpMethod", .str "$context.httpMethod"),
     ("resource", .str "$context.resourcePath"),
     ("path", .str "$context.path")]
  let request_template :=
    if path_parameters.isEmpty then request_template
    else
      dictUpdate request_template
        [("pathParameters", .obj (path_parameters.map fun name =>
          (name, .str ("$input.params(\x27" ++ name ++ "\x27)"))))]
  let response_template : JValue := .obj [("default", .obj [("statusCode", .str "200")])]
  route_create_integration uri "aws_proxy" (optJStr iam_arn)
    request_template response_template

/-- `AWSAPIRoute._default_step_function_base_call`. -/
def route_default_step_function_base_call (uri : String) (sfn_arn : String)
    (iam_arn : Option String) (mapping_template : Option JDict) :
    Except String JDict :=
  let mt : String :=
    match mapping_template with
    | Option.none => "$input.json(\x27$\x27)"
    | some d => jsonDumps (.obj d)
  let request_template : JDict :=
    [("input", .str mt),
     ("stateMachineArn", .str sfn_arn),
     ("region", .str "$\x7bregion\x7d")]
  let response_template : JValue := .obj
    [("default", .obj
      [("statusCode", .str "200"),
       ("responseTemplates", .obj [("application/json", .str sfnResponseTemplate)])])]
  route_create_integration uri "aws" (optJStr iam_arn)
    request_template response_template

def route_default_step_function_sync_call (sfn_arn : String) (iam_arn : Option String)
    (mapping_template : Option JDict) : Except String JDict :=
  route_default_step_function_base_call
    "arn:aws:apigateway:$\x7bregion\x7d:states:action/StartSyncExecution"
    sfn_arn iam_arn mapping_template

def route_default_step_function_call (sfn_arn : String) (iam_arn : Option String)
    (mapping_template : Option JDict) : Except String JDict :=
  route_default_step_function_base_call
    "arn:aws:apigateway:$\x7bregion\x7d:states:action/StartExecution"
    sfn_arn iam_arn mapping_template

/-- The observable state of a constructed `AWSAPIRoute`. -/
structure AWSAPIRouteState where
  aws_lambda_uri : Option String
  aws_sfn_sync_arn : Option String
  aws_sfn_arn : Option String
  aws_iam_arn : Option String
  openapi_extra : JDict

/-- `AWSAPIRoute.__init__`.

The kwargs consumed by `kwargs.pop` become explicit optional arguments
(`openapi_extra` defaults to `{}` in the code, hence a plain `JDict`).
The first guard raises `ValueError` when all four integration sources
are falsy (`str([])` renders the remaining kwargs, which we do not
model).  `super().__init__` resets `self.openapi_extra` to `None`
(the attribute was popped out of the kwargs), after which the chosen
integration block is merged into a fresh `{}` via `dict.update`;
`self.path_format` for the paths in question is `path` itself.  When
the Lambda branch is selected, `_extract_path_parameters` runs
`Formatter().parse` on the path and its `ValueError` on malformed brace
syntax propagates out of the constructor.  When
`openapi_extra` is truthy but carries no
`"x-amazon-apigateway-integration"` key and no ARN kwarg is set, the
`else` branch after the `super().__init__()` call raises the second
`ValueError`. -/
def AWSAPIRoute_init (path : String)
    (aws_lambda_uri aws_sfn_sync_arn aws_sfn_arn aws_iam_arn : Option String)
    (aws_mapping_template : Option JDict) (openapi_extra : JDict) :
    Except String AWSAPIRouteState :=
  if !(truthyOptStr aws_lambda_uri || truthyOptStr aws_sfn_sync_arn
      || truthyOptStr aws_sfn_arn || !openapi_extra.isEmpty) then
    .error "ValueError: require one of \x27aws_lambda_uri, aws_sfn_sync_arn, aws_sfn_arn\x27, recieved: \x27[]\x27"
  else
    let integration : Option JDict :=
      if !openapi_extra.isEmpty && hasKey openapi_extra "x-amazon-apigateway-integration"
      then some openapi_extra
      else Option.none
    let integrationE : Except String JDict :=
      match integration with
      | some i => .ok i
      | Option.none =>
        if truthyOptStr aws_lambda_uri then
          match extract_path_parameters path with
          | .error e => .error e
          | .ok path_parameters =>
            route_default_lambda_call (aws_lambda_uri.getD "") aws_iam_arn
              path_parameters
        else if truthyOptStr aws_sfn_sync_arn then
          route_default_step_function_sync_call (aws_sfn_sync_arn.getD "") aws_iam_arn
            aws_mapping_template
        else if truthyOptStr aws_sfn_arn then
          route_default_step_function_call (aws_sfn_arn.getD "") aws_iam_arn
            aws_mapping_template
        else
          .error "ValueError: expected one of [aws_lambda_uri, aws_sfn_sync_arn, openapi_extra.x-amazon-apigateway-integration]"
    match integrationE with
    | .error e => .error e
    | .ok integ =>
      .ok { aws_lambda_uri := aws_lambda_uri, aws_sfn_sync_arn := aws_sfn_sync_arn,
            aws_sfn_arn := aws_sfn_arn, aws_iam_arn := aws_iam_arn,
            openapi_extra := dictUpdate [] integ }

/-! # C1: how many integration sources must be supplied -/

/-- C10: a non-empty `openapi_extra` without the
`"x-amazon-apigateway-integration"` key, with none of the ARN kwargs
set, passes the initial integration-source validation (the first
`ValueError`, with its `require one of ...` message, is not raised) but
construction still fails afterwards with the second `ValueError`
(`expected one of [...]`), raised after `super().__init__()` returns. -/
theorem route_openapi_extra_without_integration_key (path : String)
    (iam : Option String) (mt : Option JDict) (oe : JDict)
    (hne : oe ≠ []) (hno : hasKey oe "x-amazon-apigateway-integration" = false) :
    AWSAPIRoute_init path Option.none Option.none Option.none iam mt oe
      = .error "ValueError: expected one of [aws_lambda_uri, aws_sfn_sync_arn, openapi_extra.x-amazon-apigateway-integration]" := by
  cases oe with
  | nil => exact absurd rfl hne
  | cons hd tl =>
    simp [AWSAPIRoute_init, truthyOptStr, hno]

theorem route_openapi_extra_without_integration_key_witness :
    AWSAPIRoute_init "/x" Option.none Option.none Option.none Option.none Option.none
        [("summary", .str "s")]
      = .error "ValueError: expected one of [aws_lambda_uri, aws_sfn_sync_arn, openapi_extra.x-amazon-apigateway-integration]" :=
  route_openapi_extra_without_integration_key "/x" Option.none Option.none
    [("summary", .str "s")] (by simp) rfl

/-! # `__main__.add_cors_to_openapi`

Python mutates the schema in place and returns it; the embedding
rebuilds the document.  Each level errors exactly where Python raises:
a missing `"paths"` key (`KeyError`), `.items()` on a non-dict
(`AttributeError`), membership/item assignment on a value that supports
neither (`TypeError`). -/

def corsOriginHeader : JValue :=
  .obj [("schema", .obj [("type", .str "string")]), ("example", .str "*")]

def corsHeadersHeader : JValue :=
  .obj [("schema", .obj [("type", .str "string")]),
        ("example", .str "Content-Type, Authorization, X-Api-Key")]

def corsMethodsHeader : JValue :=
  .obj [("schema", .obj [("type", .str "string")]),
        ("example", .str "OPTIONS, GET, POST, PUT, DELETE, PATCH")]

def corsHeaderNames : List String :=
  ["Access-Control-Allow-Origin", "Access-Control-Allow-Headers",
   "Access-Control-Allow-Methods"]

/-- The per-response body of the inner loop: ensure `"headers"` exists,
then assign the three fixed header entries. -/
def addCorsToResponse (resp : JValue) : Except String JValue :=
  match resp with
  | .obj fields =>
    let fields1 := if hasKey fields "headers" then fields
                   else fields ++ [("headers", .obj [])]
    match lookupKey fields1 "headers" with
    | some (.obj hs) =>
      let hs1 :=
        dictSet (dictSet (dictSet hs "Access-Control-Allow-Origin" corsOriginHeader)
          "Access-Control-Allow-Headers" corsHeadersHeader)
          "Access-Control-Allow-Methods" corsMethodsHeader
      .ok (.obj (dictSet fields1 "headers" (.obj hs1)))
    | some _ => .error "TypeError"
    | Option.none => .error "TypeError"
  | _ => .error "TypeError"

def addCorsToResponsesList : List (String × JValue) → Except String (List (String × JValue))
  | [] => .ok []
  | (k, r) :: rest =>
    match addCorsToResponse r, addCorsToResponsesList rest with
    | .ok r2, .ok rest2 => .ok ((k, r2) :: rest2)
    | .error e, _ => .error e
    | _, .error e => .error e

/-- `details["responses"].items()` requires a dict. -/
def addCorsToResponses (rs : JValue) : Except String JValue :=
  match rs with
  | .obj entries => (addCorsToResponsesList entries).map .obj
  | _ => .error "AttributeError"

/-- One `details` value of a path item: `if "responses" in details`.
For a non-dict, Python's `in` is a membership / substring test whose
positive outcome leads to a `TypeError` at `details["responses"]`. -/
def addCorsToDetails (details : JValue) : Except String JValue :=
  match details with
  | .obj fields =>
    match lookupKey fields "responses" with
    | some rs => (addCorsToResponses rs).map (fun rs2 => .obj (dictSet fields "responses" rs2))
    | Option.none => .ok (.obj fields)
  | .arr xs => if xs.contains (.str "responses") then .error "TypeError" else .ok (.arr xs)
  | .str s => if strContainsSub s "responses" then .error "TypeError" else .ok (.str s)
  | _ => .error "TypeError"

def addCorsToMethodsList : List (String × JValue) → Except String (List (String × JValue))
  | [] => .ok []
  | (m, details) :: rest =>
    match addCorsToDetails details, addCorsToMethodsList rest with
    | .ok d2, .ok rest2 => .ok ((m, d2) :: rest2)
    | .error e, _ => .error e
    | _, .error e => .error e

def addCorsToPathsList : List (String × JValue) → Except String (List (String × JValue))
  | [] => .ok []
  | (p, methods) :: rest =>
    match methods with
    | .obj ms =>
      match addCorsToMethodsList ms, addCorsToPathsList rest with
      | .ok ms2, .ok rest2 => .ok ((p, .obj ms2) :: rest2)
      | .error e, _ => .error e
      | _, .error e => .error e
    | _ => .error "AttributeError"

/-- `add_cors_to_openapi`. -/
def add_cors_to_openapi (openapi_schema : JValue) : Except String JValue :=
  match openapi_schema with
  | .obj doc =>
    match lookupKey doc "paths" with
    | some (.obj paths) =>
      (addCorsToPathsList paths).map (fun ps => .obj (dictSet doc "paths" (.obj ps)))
    | some _ => .error "AttributeError"
    | Option.none => .error "KeyError"
  | _ => .error "TypeError"

/-! Well-formedness of the document shapes the Python code handles
without raising: a dict with a dict `"paths"`, whose path items are
dicts of operations (or lists not containing the string `"responses"`);
each operation's `"responses"`, when present, is a dict of dict
responses whose `"headers"`, when present, is a dict. -/

def WFResponse (r : JValue) : Bool :=
  match r with
  | .obj fields =>
    match lookupKey fields "headers" with
    | Option.none => true
    | some (.obj _) => true
    | some _ => false
  | _ => false

def WFDetails (d : JValue) : Bool :=
  match d with
  | .obj fields =>
    match lookupKey fields "responses" with
    | Option.none => true
    | some (.obj rs) => rs.all (fun kv => WFResponse kv.2)
    | some _ => false
  | .arr xs => !xs.contains (.str "responses")
  | _ => false

def WFDoc (doc : JValue) : Bool :=
  match doc with
  | .obj fields =>
    match lookupKey fields "paths" with
    | some (.obj paths) =>
      paths.all (fun pkv =>
        match pkv.2 with
        | .obj methods => methods.all (fun mkv => WFDetails mkv.2)
        | _ => false)
    | _ => false
  | _ => false

/-! The completeness side: every response entry of every operation
carries the three fixed CORS headers with the fixed values. -/

def ResponseCorsOk (r : JValue) : Prop :=
  ∀ fields, r = .obj fields →
    ∃ hs, lookupKey fields "headers" = some (.obj hs) ∧
      lookupKey hs "Access-Control-Allow-Origin" = some corsOriginHeader ∧
      lookupKey hs "Access-Control-Allow-Headers" = some corsHeadersHeader ∧
      lookupKey hs "Access-Control-Allow-Methods" = some corsMethodsHeader

def DetailsCorsOk (d : JValue) : Prop :=
  ∀ fields rs, d = .obj fields → lookupKey fields "responses" = some (.obj rs) →
    ∀ kv ∈ rs, ResponseCorsOk kv.2

def DocCorsOk (doc : JValue) : Prop :=
  ∀ fields paths, doc = .obj fields → lookupKey fields "paths" = some (.obj paths) →
    ∀ pkv ∈ paths, ∀ methods, pkv.2 = .obj methods →
      ∀ mkv ∈ methods, DetailsCorsOk mkv.2

/-! The frame side: erasing the three CORS header names from every
response (dropping a `"headers"` dict that thereby becomes empty)
recovers everything the operation left untouched. -/

def eraseCorsResponse (r : JValue) : JValue :=
  match r with
  | .obj fields =>
    match lookupKey fields "headers" with
    | some (.obj hs) =>
      let hs2 := hs.filter (fun kv => !(corsHeaderNames.contains kv.1))
      if hs2.isEmpty then .obj (fields.filter (fun kv => !(kv.1 == "headers")))
      else .obj (dictSet fields "headers" (.obj hs2))
    | _ => r
  | _ => r

def eraseCorsDetails (d : JValue) : JValue :=
  match d with
  | .obj fields =>
    match lookupKey fields "responses" with
    | some (.obj rs) =>
      .obj (dictSet fields "responses"
        (.obj (rs.map (fun kv => (kv.1, eraseCorsResponse kv.2)))))
    | _ => d
  | _ => d

def erasePathItem (v : JValue) : JValue :=
  match v with
  | .obj methods => .obj (methods.map (fun mkv => (mkv.1, eraseCorsDetails mkv.2)))
  | v => v

def eraseCorsDoc (doc : JValue) : JValue :=
  match doc with
  | .obj fields =>
    match lookupKey fields "paths" with
    | some (.obj paths) =>
      .obj (dictSet fields "paths"
        (.obj (paths.map (fun pkv => (pkv.1, erasePathItem pkv.2)))))
    | _ => doc
  | _ => doc

/-! # Dictionary lemmas for the CORS-injection proof -/

theorem lookup_dictSet_self (d : JDict) (k : String) (v : JValue) :
    lookupKey (dictSet d k v) k = some v := by
  induction d with
  | nil => simp [dictSet, lookupKey]
  | cons kv t ih =>
    obtain ⟨k1, v1⟩ := kv
    by_cases h1 : k1 = k
    · subst h1
      simp [dictSet, lookupKey]
    · have h1f : (k1 == k) = false := by simp [h1]
      simp [dictSet, lookupKey, h1f, ih]

theorem lookup_dictSet_other (d : JDict) (k k2 : String) (v : JValue)
    (h : k ≠ k2) : lookupKey (dictSet d k v) k2 = lookupKey d k2 := by
  have hf : (k == k2) = false := by simp [h]
  induction d with
  | nil => simp [dictSet, lookupKey, hf]
  | cons kv t ih =>
    obtain ⟨k1, v1⟩ := kv
    by_cases h1 : k1 = k
    · subst h1
      simp [dictSet, lookupKey, hf]
    · have h1f : (k1 == k) = false := by simp [h1]
      simp [dictSet, lookupKey, h1f, ih]

theorem dictSet_dictSet (d : JDict) (k : String) (x y : JValue) :
    dictSet (dictSet d k x) k y = dictSet d k y := by
  induction d with
  | nil => simp [dictSet]
  | cons kv t ih =>
    obtain ⟨k1, v1⟩ := kv
    by_cases h1 : k1 = k
    · subst h1
      simp [dictSet]
    · have h1f : (k1 == k) = false := by simp [h1]
      simp [dictSet, h1f, ih]

theorem filter_dictSet_out (q : String → Bool) (d : JDict) (k : String) (v : JValue)
    (hq : q k = false) :
    (dictSet d k v).filter (fun kv => q kv.1) = d.filter (fun kv => q kv.1) := by
  induction d with
  | nil => simp [dictSet, hq]
  | cons kv t ih =>
    obtain ⟨k1, v1⟩ := kv
    by_cases h1 : k1 = k
    · subst h1
      simp [dictSet, hq]
    · have h1f : (k1 == k) = false := by simp [h1]
      by_cases h2 : q k1
      · simp [dictSet, h1f, h2, ih]
      · simp [dictSet, h1f, h2, ih]

theorem filter_eq_of_lookup_none (d : JDict) (k : String)
    (h : lookupKey d k = Option.none) :
    d.filter (fun kv => !(kv.1 == k)) = d := by
  induction d with
  | nil => simp
  | cons kv t ih =>
    obtain ⟨k1, v1⟩ := kv
    by_cases h1 : k1 = k
    · subst h1
      simp [lookupKey] at h
    · have h1f : (k1 == k) = false := by simp [h1]
      simp [lookupKey, h1f] at h
      simp [h1f, ih h]

theorem dictSet_append_missing (d : JDict) (k : String) (w v : JValue)
    (h : lookupKey d k = Option.none) :
    dictSet (d ++ [(k, w)]) k v = d ++ [(k, v)] := by
  induction d with
  | nil => simp [dictSet]
  | cons kv t ih =>
    obtain ⟨k1, v1⟩ := kv
    by_cases h1 : k1 = k
    · subst h1
      simp [lookupKey] at h
    · have h1f : (k1 == k) = false := by simp [h1]
      simp [lookupKey, h1f] at h
      simp [dictSet, h1f, ih h]

theorem lookup_append_missing (d : JDict) (k : String) (v : JValue)
    (h : lookupKey d k = Option.none) :
    lookupKey (d ++ [(k, v)]) k = some v := by
  induction d with
  | nil => simp [lookupKey]
  | cons kv t ih =>
    obtain ⟨k1, v1⟩ := kv
    by_cases h1 : k1 = k
    · subst h1
      simp [lookupKey] at h
    · have h1f : (k1 == k) = false := by simp [h1]
      simp [lookupKey, h1f] at h
      simp [lookupKey, h1f, ih h]

/-- The three CORS header entries, as produced from an initially empty
`headers` dict. -/
def corsTriple : JDict :=
  [("Access-Control-Allow-Origin", corsOriginHeader),
   ("Access-Control-Allow-Headers", corsHeadersHeader),
   ("Access-Control-Allow-Methods", corsMethodsHeader)]

theorem addCorsToResponse_contract (r : JValue) (h : WFResponse r = true) :
    ∃ r2, addCorsToResponse r = .ok r2 ∧ ResponseCorsOk r2 ∧
      eraseCorsResponse r2 = eraseCorsResponse r := by
  cases r with
  | obj fields =>
    cases hh : lookupKey fields "headers" with
    | none =>
      have hkf : hasKey fields "headers" = false := by simp [hasKey, hh]
      have hl1 : lookupKey (fields ++ [("headers", JValue.obj [])]) "headers"
          = some (.obj []) := lookup_append_missing fields _ _ hh
      have step : addCorsToResponse (.obj fields)
          = .ok (.obj (dictSet (fields ++ [("headers", .obj [])]) "headers"
              (.obj corsTriple))) := by
        unfold addCorsToResponse
        simp only [hkf, Bool.false_eq_true, if_false]
        rw [hl1]
        rfl
      refine ⟨.obj (fields ++ [("headers", .obj corsTriple)]), ?_, ?_, ?_⟩
      · rw [step, dictSet_append_missing fields _ _ _ hh]
      · intro fields2 heq
        injection heq with heq2
        subst heq2
        exact ⟨corsTriple, lookup_append_missing fields _ _ hh, rfl, rfl, rfl⟩
      · have e1 : eraseCorsResponse (.obj (fields ++ [("headers", .obj corsTriple)]))
            = .obj ((fields ++ [("headers", JValue.obj corsTriple)]).filter
                (fun kv => !(kv.1 == "headers"))) := by
          simp only [eraseCorsResponse]
          rw [lookup_append_missing fields _ _ hh]
          rfl
        have e2 : (fields ++ [("headers", JValue.obj corsTriple)]).filter
            (fun kv => !(kv.1 == "headers")) = fields := by
          rw [List.filter_append]
          rw [show ([("headers", JValue.obj corsTriple)].filter
            (fun kv => !(kv.1 == "headers"))) = [] from rfl]
          rw [List.append_nil]
          exact filter_eq_of_lookup_none fields _ hh
        have e3 : eraseCorsResponse (.obj fields) = .obj fields := by
          simp only [eraseCorsResponse]
          rw [hh]
        rw [e1, e2, e3]
    | some hv =>
      cases hv with
      | obj hs =>
        have hkt : hasKey fields "headers" = true := by simp [hasKey, hh]
        have hfilter : (dictSet (dictSet (dictSet hs
              "Access-Control-Allow-Origin" corsOriginHeader)
              "Access-Control-Allow-Headers" corsHeadersHeader)
              "Access-Control-Allow-Methods" corsMethodsHeader).filter
                (fun kv => !(corsHeaderNames.contains kv.1))
              = hs.filter (fun kv => !(corsHeaderNames.contains kv.1)) := by
          rw [filter_dictSet_out (fun s => !(corsHeaderNames.contains s))
            (dictSet (dictSet hs "Access-Control-Allow-Origin" corsOriginHeader)
              "Access-Control-Allow-Headers" corsHeadersHeader)
            "Access-Control-Allow-Methods" corsMethodsHeader (by decide)]
          rw [filter_dictSet_out (fun s => !(corsHeaderNames.contains s))
            (dictSet hs "Access-Control-Allow-Origin" corsOriginHeader)
            "Access-Control-Allow-Headers" corsHeadersHeader (by decide)]
          rw [filter_dictSet_out (fun s => !(corsHeaderNames.contains s))
            hs "Access-Control-Allow-Origin" corsOriginHeader (by decide)]
        have step : addCorsToResponse (.obj fields)
            = .ok (.obj (dictSet fields "headers"
                (.obj (dictSet (dictSet (dictSet hs "Access-Control-Allow-Origin" corsOriginHeader)
                  "Access-Control-Allow-Headers" corsHeadersHeader)
                  "Access-Control-Allow-Methods" corsMethodsHeader)))) := by
          unfold addCorsToResponse
          simp only [hkt, if_true]
          rw [hh]
        refine ⟨.obj (dictSet fields "headers"
            (.obj (dictSet (dictSet (dictSet hs "Access-Control-Allow-Origin" corsOriginHeader)
              "Access-Control-Allow-Headers" corsHeadersHeader)
              "Access-Control-Allow-Methods" corsMethodsHeader))), step, ?_, ?_⟩
        · intro fields2 heq
          injection heq with heq2
          subst heq2
          refine ⟨_, lookup_dictSet_self fields "headers" _, ?_, ?_,
            lookup_dictSet_self _ _ _⟩
          · rw [lookup_dictSet_other _ _ _ _ (by decide)]
            rw [lookup_dictSet_other _ _ _ _ (by decide)]
            exact lookup_dictSet_self _ _ _
          · rw [lookup_dictSet_other _ _ _ _ (by decide)]
            exact lookup_dictSet_self _ _ _
        · have e1 : eraseCorsResponse (.obj fields)
              = (if (hs.filter (fun kv => !(corsHeaderNames.contains kv.1))).isEmpty then
                  JValue.obj (fields.filter (fun kv => !(kv.1 == "headers")))
                else
                  .obj (dictSet fields "headers"
                    (.obj (hs.filter (fun kv => !(corsHeaderNames.contains kv.1)))))) := by
            simp only [eraseCorsResponse]
            rw [hh]
          have e2 : eraseCorsResponse (.obj (dictSet fields "headers"
              (.obj (dictSet (dictSet (dictSet hs "Access-Control-Allow-Origin" corsOriginHeader)
                "Access-Control-Allow-Headers" corsHeadersHeader)
                "Access-Control-Allow-Methods" corsMethodsHeader))))
              = (if ((dictSet (dictSet (dictSet hs "Access-Control-Allow-Origin" corsOriginHeader)
                      "Access-Control-Allow-Headers" corsHeadersHeader)
                      "Access-Control-Allow-Methods" corsMethodsHeader).filter
                        (fun kv => !(corsHeaderNames.contains kv.1))).isEmpty then
                  JValue.obj ((dictSet fields "headers"
                    (.obj (dictSet (dictSet (dictSet hs "Access-Control-Allow-Origin" corsOriginHeader)
                      "Access-Control-Allow-Headers" corsHeadersHeader)
                      "Access-Control-Allow-Methods" corsMethodsHeader))).filter
                        (fun kv => !(kv.1 == "headers")))
                else
                  .obj (dictSet (dictSet fields "headers"
                    (.obj (dictSet (dictSet (dictSet hs "Access-Control-Allow-Origin" corsOriginHeader)
                      "Access-Control-Allow-Headers" corsHeadersHeader)
                      "Access-Control-Allow-Methods" corsMethodsHeader))) "headers"
                    (.obj ((dictSet (dictSet (dictSet hs "Access-Control-Allow-Origin" corsOriginHeader)
                      "Access-Control-Allow-Headers" corsHeadersHeader)
                      "Access-Control-Allow-Methods" corsMethodsHeader).filter
                        (fun kv => !(corsHeaderNames.contains kv.1)))))) := by
            simp only [eraseCorsResponse]
            rw [lookup_dictSet_self fields "headers" _]
          rw [e1, e2, hfilter]
          by_cases hemp : (hs.filter (fun kv => !(corsHeaderNames.contains kv.1))).isEmpty
          · simp only [hemp, if_true]
            rw [filter_dictSet_out (fun s => !(s == "headers")) fields "headers" _ (by decide)]
          · simp only [hemp, Bool.false_eq_true, if_false, dictSet_dictSet]
      | null => simp [WFResponse, hh] at h
      | bool b => simp [WFResponse, hh] at h
      | num n => simp [WFResponse, hh] at h
      | str s => simp [WFResponse, hh] at h
      | arr xs => simp [WFResponse, hh] at h
  | null => simp [WFResponse] at h
  | bool b => simp [WFResponse] at h
  | num n => simp [WFResponse] at h
  | str s => simp [WFResponse] at h
  | arr xs => simp [WFResponse] at h

theorem addCorsToResponsesList_contract (rs : List (String × JValue))
    (h : rs.all (fun kv => WFResponse kv.2) = true) :
    ∃ rs2, addCorsToResponsesList rs = .ok rs2 ∧
      (∀ kv ∈ rs2, ResponseCorsOk kv.2) ∧
      rs2.map (fun kv => (kv.1, eraseCorsResponse kv.2))
        = rs.map (fun kv => (kv.1, eraseCorsResponse kv.2)) := by
  induction rs with
  | nil => exact ⟨[], rfl, by simp, rfl⟩
  | cons kv rest ih =>
    obtain ⟨k, r⟩ := kv
    simp only [List.all_cons, Bool.and_eq_true] at h
    obtain ⟨r2, hr2, hok, herase⟩ := addCorsToResponse_contract r h.1
    obtain ⟨rest2, hrest2, hok2, herase2⟩ := ih h.2
    refine ⟨(k, r2) :: rest2, ?_, ?_, ?_⟩
    · simp only [addCorsToResponsesList, hr2, hrest2]
    · intro kv2 hm
      rcases List.mem_cons.mp hm with h1 | h1
      · subst h1; exact hok
      · exact hok2 kv2 h1
    · simp [herase, herase2]

theorem addCorsToDetails_contract (d : JValue) (h : WFDetails d = true) :
    ∃ d2, addCorsToDetails d = .ok d2 ∧ DetailsCorsOk d2 ∧
      eraseCorsDetails d2 = eraseCorsDetails d := by
  cases d with
  | obj fields =>
    cases hh : lookupKey fields "responses" with
    | none =>
      refine ⟨.obj fields, ?_, ?_, rfl⟩
      · simp only [addCorsToDetails, hh]
      · intro f2 rs heq hlook
        injection heq with he
        subst he
        rw [hh] at hlook
        cases hlook
    | some rsv =>
      cases rsv with
      | obj rs =>
        have hall : rs.all (fun kv => WFResponse kv.2) = true := by
          simp only [WFDetails, hh] at h
          exact h
        obtain ⟨rs2, hrs2, hok, herase⟩ := addCorsToResponsesList_contract rs hall
        refine ⟨.obj (dictSet fields "responses" (.obj rs2)), ?_, ?_, ?_⟩
        · simp only [addCorsToDetails, hh, addCorsToResponses, hrs2]
          rfl
        · intro f2 rs3 heq hlook
          injection heq with he
          subst he
          rw [lookup_dictSet_self] at hlook
          injection hlook with hv
          injection hv with hv2
          subst hv2
          exact hok
        · have eL : eraseCorsDetails (.obj (dictSet fields "responses" (.obj rs2)))
              = .obj (dictSet (dictSet fields "responses" (.obj rs2)) "responses"
                  (.obj (rs2.map (fun kv => (kv.1, eraseCorsResponse kv.2))))) := by
            simp only [eraseCorsDetails]
            rw [lookup_dictSet_self]
          have eR : eraseCorsDetails (.obj fields)
              = .obj (dictSet fields "responses"
                  (.obj (rs.map (fun kv => (kv.1, eraseCorsResponse kv.2))))) := by
            simp only [eraseCorsDetails]
            rw [hh]
          rw [eL, eR, dictSet_dictSet, herase]
      | null => simp [WFDetails, hh] at h
      | bool b => simp [WFDetails, hh] at h
      | num n => simp [WFDetails, hh] at h
      | str s => simp [WFDetails, hh] at h
      | arr xs => simp [WFDetails, hh] at h
  | arr xs =>
    have hc : xs.contains (JValue.str "responses") = false := by
      simp only [WFDetails, Bool.not_eq_eq_eq_not, Bool.not_true] at h
      exact h
    refine ⟨.arr xs, ?_, ?_, rfl⟩
    · simp only [addCorsToDetails, hc, Bool.false_eq_true, if_false]
    · intro f2 rs heq hlook
      cases heq
  | null => simp [WFDetails] at h
  | bool b => simp [WFDetails] at h
  | num n => simp [WFDetails] at h
  | str s => simp [WFDetails] at h

theorem addCorsToMethodsList_contract (ms : List (String × JValue))
    (h : ms.all (fun mkv => WFDetails mkv.2) = true) :
    ∃ ms2, addCorsToMethodsList ms = .ok ms2 ∧
      (∀ mkv ∈ ms2, DetailsCorsOk mkv.2) ∧
      ms2.map (fun mkv => (mkv.1, eraseCorsDetails mkv.2))
        = ms.map (fun mkv => (mkv.1, eraseCorsDetails mkv.2)) := by
  induction ms with
  | nil => exact ⟨[], rfl, by simp, rfl⟩
  | cons mkv rest ih =>
    obtain ⟨m, d⟩ := mkv
    simp only [List.all_cons, Bool.and_eq_true] at h
    obtain ⟨d2, hd2, hok, herase⟩ := addCorsToDetails_contract d h.1
    obtain ⟨rest2, hrest2, hok2, herase2⟩ := ih h.2
    refine ⟨(m, d2) :: rest2, ?_, ?_, ?_⟩
    · simp only [addCorsToMethodsList, hd2, hrest2]
    · intro mkv2 hm
      rcases List.mem_cons.mp hm with h1 | h1
      · subst h1; exact hok
      · exact hok2 mkv2 h1
    · simp [herase, herase2]

theorem addCorsToPathsList_contract (paths : List (String × JValue))
    (h : paths.all (fun pkv =>
      match pkv.2 with
      | .obj methods => methods.all (fun mkv => WFDetails mkv.2)
      | _ => false) = true) :
    ∃ ps2, addCorsToPathsList paths = .ok ps2 ∧
      (∀ pkv ∈ ps2, ∀ methods, pkv.2 = .obj methods →
        ∀ mkv ∈ methods, DetailsCorsOk mkv.2) ∧
      ps2.map (fun pkv => (pkv.1, erasePathItem pkv.2))
        = paths.map (fun pkv => (pkv.1, erasePathItem pkv.2)) := by
  induction paths with
  | nil => exact ⟨[], rfl, by simp, rfl⟩
  | cons pkv rest ih =>
    obtain ⟨p, methods⟩ := pkv
    simp only [List.all_cons, Bool.and_eq_true] at h
    cases methods with
    | obj ms =>
      obtain ⟨ms2, hms2, hok, herase⟩ := addCorsToMethodsList_contract ms h.1
      obtain ⟨rest2, hrest2, hok2, herase2⟩ := ih h.2
      refine ⟨(p, .obj ms2) :: rest2, ?_, ?_, ?_⟩
      · simp only [addCorsToPathsList, hms2, hrest2]
      · intro pkv2 hm
        rcases List.mem_cons.mp hm with h1 | h1
        · subst h1
          intro methods2 heq
          injection heq with he
          subst he
          exact hok
        · exact hok2 pkv2 h1
      · simp only [List.map]
        rw [show erasePathItem (JValue.obj ms2)
          = .obj (ms2.map (fun mkv => (mkv.1, eraseCorsDetails mkv.2))) from rfl]
        rw [show erasePathItem (JValue.obj ms)
          = .obj (ms.map (fun mkv => (mkv.1, eraseCorsDetails mkv.2))) from rfl]
        rw [herase, herase2]
    | null => simp at h
    | bool b => simp at h
    | num n => simp at h
    | str s => simp at h
    | arr xs => simp at h

/-- C6: for every well-formed OpenAPI document, the CORS header
injection succeeds, every response entry of every operation in the
result carries exactly the three fixed header names with the fixed
values, and erasing those three header names from every response
recovers the same document as erasing them from the input — so all
existing non-header fields are left unchanged, and no header other than
the three is touched. -/
theorem add_cors_to_openapi_contract (doc : JValue) (h : WFDoc doc = true) :
    ∃ out, add_cors_to_openapi doc = .ok out ∧ DocCorsOk out ∧
      eraseCorsDoc out = eraseCorsDoc doc := by
  cases doc with
  | obj fields =>
    cases hh : lookupKey fields "paths" with
    | none => simp [WFDoc, hh] at h
    | some pv =>
      cases pv with
      | obj paths =>
        have hall : paths.all (fun pkv =>
            match pkv.2 with
            | .obj methods => methods.all (fun mkv => WFDetails mkv.2)
            | _ => false) = true := by
          simp only [WFDoc, hh] at h
          exact h
        obtain ⟨ps2, hps2, hok, herase⟩ := addCorsToPathsList_contract paths hall
        refine ⟨.obj (dictSet fields "paths" (.obj ps2)), ?_, ?_, ?_⟩
        · simp only [add_cors_to_openapi, hh, hps2]
          rfl
        · intro f2 paths2 heq hlook
          injection heq with he
          subst he
          rw [lookup_dictSet_self] at hlook
          injection hlook with hv
          injection hv with hv2
          subst hv2
          exact hok
        · have eL : eraseCorsDoc (.obj (dictSet fields "paths" (.obj ps2)))
              = .obj (dictSet (dictSet fields "paths" (.obj ps2)) "paths"
                  (.obj (ps2.map (fun pkv => (pkv.1, erasePathItem pkv.2))))) := by
            simp only [eraseCorsDoc]
            rw [lookup_dictSet_self]
          have eR : eraseCorsDoc (.obj fields)
              = .obj (dictSet fields "paths"
                  (.obj (paths.map (fun pkv => (pkv.1, erasePathItem pkv.2))))) := by
            simp only [eraseCorsDoc]
            rw [hh]
          rw [eL, eR, dictSet_dictSet, herase]
      | null => simp [WFDoc, hh] at h
      | bool b => simp [WFDoc, hh] at h
      | num n => simp [WFDoc, hh] at h
      | str s => simp [WFDoc, hh] at h
      | arr xs => simp [WFDoc, hh] at h
  | null => simp [WFDoc] at h
  | bool b => simp [WFDoc] at h
  | num n => simp [WFDoc] at h
  | str s => simp [WFDoc] at h
  | arr xs => simp [WFDoc] at h

/-- a concrete well-formed OpenAPI document with one GET operation and
one response -/
def corsSampleDoc : JValue :=
  .obj [("openapi", .str "3.0.1"),
        ("info", .obj [("title", .str "t")]),
        ("paths", .obj
          [("/items", .obj
            [("get", .obj
              [("responses", .obj
                [("200", .obj [("description", .str "OK")])])])])])]

theorem add_cors_to_openapi_contract_witness :
    ∃ out, add_cors_to_openapi corsSampleDoc = .ok out ∧ DocCorsOk out ∧
      eraseCorsDoc out = eraseCorsDoc corsSampleDoc :=
  add_cors_to_openapi_contract corsSampleDoc (by rfl)
